import Mathlib

/-!
Verification development for the interactive multi-agent debate runner
(`src/runners/interactive_debate.py`) and its model-gateway layer
(`src/debate/models.py`).

Python strings are embedded as `List Char` (one entry per code point, matching
Python's character-indexed slicing), written `Str` below.  Python library
primitives used by the code (`str.strip`, `str.replace`, `"...".join`,
`str.split(pat, 1)[0]`, `in`, `json.loads`, `str()` of parsed JSON values)
are given executable models; `json.loads` is modelled by a recursive-descent
parser over the JSON grammar (the model rejects `\uXXXX` escapes and leaves
numbers as their lexemes, which is irrelevant to the properties proved here —
they are either insensitive to the exact parse result or evaluated on inputs
without those features).
-/

set_option maxRecDepth 16000

/-- Embedded Python string: a list of code points. -/
abbrev Str : Type := List Char

/-- Left brace character (written via its code point). -/
def lbrace : Char := Char.ofNat 123

/-- Right brace character (written via its code point). -/
def rbrace : Char := Char.ofNat 125

/-- Backtick character (written via its code point). -/
def btick : Char := Char.ofNat 96

/-- Whitespace test used by Python's default `str.strip`/lexing (ASCII subset). -/
def isWs (c : Char) : Bool := c = ' ' || c = '\t' || c = '\n' || c = '\r'

/-- Model of Python `str.strip()` with no argument. -/
def pyStrip (s : Str) : Str :=
  ((s.dropWhile isWs).reverse.dropWhile isWs).reverse

/-- Boolean prefix test on character lists. -/
def startsWithS : Str → Str → Bool
  | [], _ => true
  | _ :: _, [] => false
  | p :: ps, c :: cs => p = c && startsWithS ps cs

/-- Boolean suffix test on character lists (model of Python `str.endswith`). -/
def endsWithS (pat s : Str) : Bool := startsWithS pat.reverse s.reverse

/-- Model of Python's substring containment test `pat in s`. -/
def containsSub (pat : Str) : Str → Bool
  | [] => pat.isEmpty
  | c :: rest => startsWithS pat (c :: rest) || containsSub pat rest

/-- Fuel-driven worker for `pyReplace`; fuel bounds the number of consumed
characters, so `s.length` fuel always suffices. -/
def replaceAllFuel (pat rep : Str) : Nat → Str → Str
  | 0, s => s
  | _ + 1, [] => []
  | fuel + 1, c :: rest =>
    if startsWithS pat (c :: rest) && !pat.isEmpty then
      rep ++ replaceAllFuel pat rep fuel ((c :: rest).drop pat.length)
    else
      c :: replaceAllFuel pat rep fuel rest

/-- Model of Python `s.replace(pat, rep)`: replace every non-overlapping
occurrence left to right. -/
def pyReplace (s pat rep : Str) : Str := replaceAllFuel pat rep s.length s

/-- Model of Python `sep.join(parts)`. -/
def pyJoin (sep : Str) : List Str → Str
  | [] => []
  | [x] => x
  | x :: y :: rest => x ++ sep ++ pyJoin sep (y :: rest)

/-- Model of Python `s.split(pat, 1)[0]` for the case the caller already
checked `pat in s` (returns the whole string when `pat` is absent). -/
def takeBeforeSub (pat : Str) : Str → Str
  | [] => []
  | c :: rest => if startsWithS pat (c :: rest) then [] else c :: takeBeforeSub pat rest

/-- Model of Python `s.lower()` (ASCII case folding). -/
def pyLower (s : Str) : Str := s.map Char.toLower

/-- Decimal rendering of a natural number, used for `f"Agent {idx}"` style
interpolations. -/
def natStr (n : Nat) : Str := (toString n).data

/-- Parsed JSON value, as produced by Python's `json.loads`.  Objects keep the
textual field order (dictionary reads take the last binding of a key, matching
CPython's duplicate-key behaviour); numbers keep their source lexeme. -/
inductive Json where
  | null
  | bool (b : Bool)
  | num (lexeme : Str)
  | str (s : Str)
  | arr (items : List Json)
  | obj (fields : List (Str × Json))

/-- Dictionary read `d[k]`/`d.get(k)`: last binding of the key wins. -/
def dictGet (fields : List (Str × Json)) (key : Str) : Option Json :=
  match fields with
  | [] => none
  | (k, v) :: rest =>
    match dictGet rest key with
    | some w => some w
    | none => if k = key then some v else none

mutual
/-- Model of Python `repr` on values produced by `json.loads` (quote escaping
inside nested strings is not modelled; no property here depends on it). -/
def pyRepr : Json → Str
  | Json.null => "None".data
  | Json.bool true => "True".data
  | Json.bool false => "False".data
  | Json.num lx => lx
  | Json.str s => '\'' :: s ++ ['\'']
  | Json.arr xs => '[' :: pyReprList xs ++ [']']
  | Json.obj kvs => lbrace :: pyReprKVs kvs ++ [rbrace]

def pyReprList : List Json → Str
  | [] => []
  | [x] => pyRepr x
  | x :: y :: rest => pyRepr x ++ ',' :: ' ' :: pyReprList (y :: rest)

def pyReprKVs : List (Str × Json) → Str
  | [] => []
  | [(k, v)] => '\'' :: k ++ '\'' :: ':' :: ' ' :: pyRepr v
  | (k, v) :: w :: rest =>
    ('\'' :: k ++ '\'' :: ':' :: ' ' :: pyRepr v) ++ ',' :: ' ' :: pyReprKVs (w :: rest)
end

/-- Model of Python `str()` on values produced by `json.loads`: a string is
itself, anything else renders like `repr`. -/
def pyStr : Json → Str
  | Json.str s => s
  | j => pyRepr j

/-- Python truthiness of a `json.loads` value (a number is truthy when its
mantissa has a nonzero digit, which is exact for the JSON number grammar). -/
def pyTruthy : Json → Bool
  | Json.null => false
  | Json.bool b => b
  | Json.str s => !s.isEmpty
  | Json.arr xs => !xs.isEmpty
  | Json.obj kvs => !kvs.isEmpty
  | Json.num lx =>
    (lx.takeWhile (fun c => c ≠ 'e' && c ≠ 'E')).any (fun c => '1' ≤ c && c ≤ '9')

/-- Lex the body of a JSON string, the opening quote already consumed; returns
the decoded contents and the remaining input.  `\uXXXX` escapes are rejected
(see module comment). -/
def lexStringBody : Str → Option (Str × Str)
  | [] => none
  | c :: rest =>
    if c = '"' then some ([], rest)
    else if c = '\\' then
      match rest with
      | [] => none
      | e :: rest2 =>
        let dec : Option Char :=
          if e = '"' then some '"'
          else if e = '\\' then some '\\'
          else if e = '/' then some '/'
          else if e = 'n' then some '\n'
          else if e = 't' then some '\t'
          else if e = 'r' then some '\r'
          else if e = 'b' then some (Char.ofNat 8)
          else if e = 'f' then some (Char.ofNat 12)
          else none
        match dec with
        | none => none
        | some d => (lexStringBody rest2).map (fun p => (d :: p.1, p.2))
    else if c.toNat < 32 then none
    else (lexStringBody rest).map (fun p => (c :: p.1, p.2))

/-- Lex a JSON number; returns its lexeme and the remaining input. -/
def lexNumber (s : Str) : Option (Str × Str) :=
  let sign : Str × Str := match s with
    | c :: t => if c = '-' then (['-'], t) else ([], s)
    | [] => ([], s)
  let s1 := sign.2
  let ip := s1.takeWhile Char.isDigit
  let r1 := s1.dropWhile Char.isDigit
  if ip.isEmpty then none
  else if 2 ≤ ip.length && ip.headD ' ' = '0' then none
  else
    let frac : Str × Str :=
      match r1 with
      | '.' :: t =>
        let ds := t.takeWhile Char.isDigit
        if ds.isEmpty then ([], r1) else ('.' :: ds, t.dropWhile Char.isDigit)
      | _ => ([], r1)
    let r2 := frac.2
    let expo : Str × Str :=
      match r2 with
      | c :: t =>
        if c = 'e' || c = 'E' then
          let es : Str × Str :=
            match t with
            | d :: t3 => if d = '+' || d = '-' then ([d], t3) else ([], t)
            | [] => ([], t)
          let ds := es.2.takeWhile Char.isDigit
          if ds.isEmpty then ([], r2)
          else (c :: es.1 ++ ds, es.2.dropWhile Char.isDigit)
        else ([], r2)
      | [] => ([], r2)
    some (sign.1 ++ ip ++ frac.1 ++ expo.1, expo.2)

mutual
/-- Recursive-descent JSON value parser (fuel-driven; the top level passes
ample fuel).  Returns the value and the remaining input. -/
def parseValue : Nat → Str → Option (Json × Str)
  | 0, _ => none
  | fuel + 1, s0 =>
    let s := s0.dropWhile isWs
    match s with
    | [] => none
    | c :: rest =>
      if c = '"' then (lexStringBody rest).map (fun p => (Json.str p.1, p.2))
      else if c = lbrace then
        let r := rest.dropWhile isWs
        match r with
        | c2 :: r2 =>
          if c2 = rbrace then some (Json.obj [], r2)
          else (parseObjItems fuel r).map (fun p => (Json.obj p.1, p.2))
        | [] => none
      else if c = '[' then
        let r := rest.dropWhile isWs
        match r with
        | c2 :: r2 =>
          if c2 = ']' then some (Json.arr [], r2)
          else (parseArrItems fuel r).map (fun p => (Json.arr p.1, p.2))
        | [] => none
      else if startsWithS "true".data s then some (Json.bool true, s.drop 4)
      else if startsWithS "false".data s then some (Json.bool false, s.drop 5)
      else if startsWithS "null".data s then some (Json.null, s.drop 4)
      else (lexNumber s).map (fun p => (Json.num p.1, p.2))

/-- Parse a non-empty comma-separated list of array items up to `]`. -/
def parseArrItems : Nat → Str → Option (List Json × Str)
  | 0, _ => none
  | fuel + 1, s =>
    match parseValue fuel s with
    | none => none
    | some (v, r) =>
      match r.dropWhile isWs with
      | ',' :: r2 => (parseArrItems fuel r2).map (fun p => (v :: p.1, p.2))
      | ']' :: r2 => some ([v], r2)
      | _ => none

/-- Parse a non-empty comma-separated list of object members up to the closing
brace. -/
def parseObjItems : Nat → Str → Option (List (Str × Json) × Str)
  | 0, _ => none
  | fuel + 1, s =>
    match s.dropWhile isWs with
    | '"' :: rest =>
      match lexStringBody rest with
      | none => none
      | some (k, r) =>
        match r.dropWhile isWs with
        | ':' :: r2 =>
          match parseValue fuel r2 with
          | none => none
          | some (v, r3) =>
            match r3.dropWhile isWs with
            | ',' :: r4 => (parseObjItems fuel r4).map (fun p => ((k, v) :: p.1, p.2))
            | c2 :: r4 => if c2 = rbrace then some ([(k, v)], r4) else none
            | [] => none
        | _ => none
    | _ => none
end

/-- Model of Python `json.loads`: parse one JSON document and require only
whitespace to remain; `none` models a raised `JSONDecodeError`. -/
def jsonLoads (raw : Str) : Option Json :=
  match parseValue (2 * raw.length + 2) raw with
  | some (j, r) => if (r.dropWhile isWs).isEmpty then some j else none
  | none => none

/-- One debate viewpoint, as stored by `generate_viewpoints`
(`interactive_debate.py:115-178`): all three fields are already
whitespace-stripped strings. -/
structure Viewpoint where
  name : Str
  position : Str
  summary : Str

/-- Canned two-viewpoint fallback of `generate_viewpoints`
(`interactive_debate.py:166-178`). -/
def fallbackViewpoints (topic : Str) : List Viewpoint :=
  [⟨"Pro Position".data,
    "Strongly supports the statement: ".data ++ topic,
    "Argues in favor, emphasizing benefits and positive outcomes.".data⟩,
   ⟨"Con Position".data,
    "Strongly opposes the statement: ".data ++ topic,
    "Argues against, emphasizing risks and drawbacks.".data⟩]

/-- Validation of one parsed list item (`interactive_debate.py:151-158`):
non-dict items are skipped, `name`/`position`/`summary` are read with `""`
defaults, stringified and stripped, and the item is kept only when both
`name` and `position` are non-empty. -/
def viewpointOfItem (item : Json) : Option Viewpoint :=
  match item with
  | Json.obj kvs =>
    let name := pyStrip (pyStr ((dictGet kvs "name".data).getD (Json.str [])))
    let pos := pyStrip (pyStr ((dictGet kvs "position".data).getD (Json.str [])))
    let summ := pyStrip (pyStr ((dictGet kvs "summary".data).getD (Json.str [])))
    if !name.isEmpty && !pos.isEmpty then some ⟨name, pos, summ⟩ else none
  | _ => none

/-- The `result` list accumulated by the parsing loop of `generate_viewpoints`. -/
def collectValid (items : List Json) : List Viewpoint :=
  items.filterMap viewpointOfItem

/-- Model of `generate_viewpoints` (`interactive_debate.py:115-178`), as a
function of the raw gateway text (the prompts do not influence the result
shape).  A parse exception, a non-list document, or fewer than two valid
entries all fall through to the canned fallback. -/
def generate_viewpoints (raw topic : Str) (maxAgents : Nat) : List Viewpoint :=
  match jsonLoads raw with
  | some (Json.arr items) =>
    let result := collectValid items
    if 2 ≤ result.length then result.take maxAgents else fallbackViewpoints topic
  | _ => fallbackViewpoints topic

/-- Model of Python `s.find(c)`: index of the first occurrence. -/
def pyFind (s : Str) (c : Char) : Option Nat := s.findIdx? (· = c)

/-- Model of Python `s.rfind(c)`: index of the last occurrence. -/
def pyRFind (s : Str) (c : Char) : Option Nat :=
  match s.reverse.findIdx? (· = c) with
  | some i => some (s.length - 1 - i)
  | none => none

/-- Model of `_extract_json_object` (`interactive_debate.py:90-112`): strip
Markdown fences, then slice from the first left brace to the last right
brace when that span is non-degenerate. -/
def extract_json_object (text : Str) : Str :=
  if text.isEmpty then []
  else
    let s := pyStrip text
    let s :=
      if startsWithS "```".data s then
        let s := s.dropWhile (· = btick)
        let s := if startsWithS "json".data (pyLower s) then s.drop 4 else s
        if containsSub "```".data s then takeBeforeSub "```".data s else s
      else s
    match pyFind s lbrace, pyRFind s rbrace with
    | some st, some en => if st < en then (s.drop st).take (en + 1 - st) else s
    | _, _ => s

/-- The quoting substitutions of `LitGPTModel.invoke`
(`models.py:358-359`), applied in source order. -/
def fixCommonJson (s : Str) : Str :=
  let s := pyReplace s "\":0.".data "\": \"0.".data
  let s := pyReplace s "\":0,".data "\": \"0,".data
  let s := pyReplace s "\":1,".data "\": \"1,".data
  let s := pyReplace s "\":0\x7d".data "\": \"0\"\x7d".data
  pyReplace s "\":1\x7d".data "\": \"1\"\x7d".data

/-- Model of the output clean-up of `LitGPTModel.invoke`
(`models.py:348-383`): strip an unterminated Markdown fence, and when the
text starts with a left brace without ending in a right brace, apply the
quoting substitutions, then append the brace-count deficit of closing
braces followed by the bracket-count deficit of closing brackets. -/
def litgptPostprocess (t0 : Str) : Str :=
  let t1 :=
    if startsWithS "```json".data t0 && !(endsWithS "```".data t0) then
      pyStrip (pyReplace (pyReplace t0 "```json".data []) "```".data [])
    else t0
  if startsWithS [lbrace] t1 && !(endsWithS [rbrace] t1) then
    let t2 := fixCommonJson t1
    let ob := t2.count lbrace
    let cb := t2.count rbrace
    let obk := t2.count '['
    let cbk := t2.count ']'
    let t3 := if cb < ob then t2 ++ List.replicate (ob - cb) rbrace else t2
    if cbk < obk then t3 ++ List.replicate (obk - cbk) ']' else t3
  else t1

/-- The fixed sentinel failure payload returned by every provider wrapper on
error (`models.py:85,124,169,286,388,392`). -/
def sentinelPayload : Str :=
  ("\x7b\"output\": \x7b\"A\": 0.25, \"B\": 0.25, \"C\": 0.25, \"D\": 0.25\x7d, "
    ++ "\"reason\": \x7b\"A\": \"Error\", \"B\": \"Error\", \"C\": \"Error\", \"D\": \"Error\"\x7d\x7d").data

/-- Object handed back by a gateway `invoke`: a provider message or the ad hoc
`MockResponse`, both exposing a `content` attribute (`none` models Python
`None`, possible for a hosted-API message). -/
structure GatewayResp where
  content : Option Str

/-- The `MockResponse` construction used throughout `models.py`. -/
def mockResponse (s : Str) : GatewayResp := ⟨some s⟩

/-- The sentinel response every wrapper returns on failure. -/
def sentinelResponse : GatewayResp := mockResponse sentinelPayload

/-- Model of `OpenAIModel.invoke` (`models.py:62-85`) as a function of the two
possible SDK call outcomes (`Except.error` carries the exception text): a
first attempt with temperature, and the no-temperature retry that is issued
only when the first exception mentions "temperature".  Any other failure, and
a failing retry, produce the sentinel response. -/
def openAIModelInvoke (first retry : Except Str GatewayResp) : GatewayResp :=
  match first with
  | Except.ok m => m
  | Except.error e =>
    if containsSub "temperature".data (pyLower e) then
      match retry with
      | Except.ok m => m
      | Except.error _ => sentinelResponse
    else sentinelResponse

/-- Model of `AnthropicModel.invoke` (`models.py:101-124`): the backend text on
success, the sentinel response on any exception. -/
def anthropicModelInvoke (outcome : Except Str Str) : GatewayResp :=
  match outcome with
  | Except.ok text => mockResponse text
  | Except.error _ => sentinelResponse

/-- Model of `GoogleModel.invoke` (`models.py:141-169`): same shape as the
Anthropic wrapper. -/
def googleModelInvoke (outcome : Except Str Str) : GatewayResp :=
  match outcome with
  | Except.ok text => mockResponse text
  | Except.error _ => sentinelResponse

/-- The trailing JSON touch-up of `LocalModel.invoke` (`models.py:259-281`).
The line-reassembly loop there appends every line unchanged (its `break`
branch is subsumed by the preceding test), so joining the lines back up is the
identity and the net effect is: drop one trailing comma, then append a single
closing brace if none ends the text. -/
def localCompleteJson (t : Str) : Str :=
  if startsWithS [lbrace] t && !(endsWithS [rbrace] t) then
    let t := if endsWithS [','] t then t.dropLast else t
    if endsWithS [rbrace] t then t else t ++ [rbrace]
  else t

/-- Model of `LocalModel.invoke` (`models.py:192-286`) as a function of the
decoded generation outcome. -/
def localModelInvoke (outcome : Except Str Str) : GatewayResp :=
  match outcome with
  | Except.error _ => sentinelResponse
  | Except.ok decoded =>
    let t := pyStrip decoded
    let t := if t.isEmpty then "I cannot provide a response at this time.".data else t
    mockResponse (localCompleteJson t)

/-- Outcome of the HTTP POST issued by `LitGPTModel.invoke`: a raised
exception, or a reply with a status code and the result of `response.json()`
(`none` when that parse raises). -/
inductive LitgptOutcome where
  | exn (msg : Str)
  | resp (status : Nat) (body : Option Json)

/-- Model of `LitGPTModel.invoke` (`models.py:300-392`).  A non-200 status,
a raised exception, an unparseable body, a non-dict body (`.get` raises), and
a truthy non-string `output` field (`.startswith` raises) all end in the
sentinel response; a falsy `output` falls back to the stringified body. -/
def litgptModelInvoke (outcome : LitgptOutcome) : GatewayResp :=
  match outcome with
  | LitgptOutcome.exn _ => sentinelResponse
  | LitgptOutcome.resp status body =>
    if status = 200 then
      match body with
      | none => sentinelResponse
      | some j =>
        match j with
        | Json.obj kvs =>
          let out := (dictGet kvs "output".data).getD (Json.str [])
          if !(pyTruthy out) then mockResponse (litgptPostprocess (pyStr j))
          else
            match out with
            | Json.str s => mockResponse (litgptPostprocess s)
            | _ => sentinelResponse
        | _ => sentinelResponse
    else sentinelResponse

/-- Observed value of a response object's `content` attribute: Python `None`
or text (the shapes produced by the gateway wrappers). -/
inductive PyContentVal where
  | pyNone
  | pyText (s : Str)

/-- A response object as seen by `invoke_raw`: an optional `content`
attribute (`none` models the attribute being absent) and the object's `str()`
rendering used as the `getattr` default. -/
structure RespObj where
  contentAttr : Option PyContentVal
  strRepr : Str

/-- Model of `invoke_raw` (`interactive_debate.py:74-87`) as a function of the
underlying `model.invoke` outcome: an exception gives `""`; otherwise the
`content` attribute (or `str(resp)` when absent, or `""` for a falsy value —
`None` or the empty string) is stripped and returned. -/
def invoke_raw (outcome : Except Str RespObj) : Str :=
  match outcome with
  | Except.error _ => []
  | Except.ok r =>
    let content : PyContentVal := r.contentAttr.getD (PyContentVal.pyText r.strRepr)
    let orDefault : Str :=
      match content with
      | PyContentVal.pyNone => []
      | PyContentVal.pyText s => s
    pyStrip orDefault

/-- The structured-brief parse attempt of `generate_agent_brief`
(`interactive_debate.py:268-280`): skipped entirely when the raw text is
empty, otherwise `json.loads` over `_extract_json_object`. -/
def briefParsed (raw : Str) : Option Json :=
  if raw.isEmpty then none else jsonLoads (extract_json_object raw)

/-- The `summary_for_prompt` field of the brief returned by
`generate_agent_brief` (`interactive_debate.py:252-295`): initialised to
`position + "\n\n" + summary`, overwritten by the parsed dict's value when the
key is present (`briefSummaryMerged`), and reset to the initial value by the
final guard unless the stored value is a string with non-empty strip. -/
def briefSummaryMerged (raw : Str) : Option Json :=
  match briefParsed raw with
  | some (Json.obj kvs) => dictGet kvs "summary_for_prompt".data
  | _ => none

/-- The value the field holds after the merge loop and the final guard. -/
def summary_for_prompt (position vpSummary raw : Str) : Str :=
  let initial := position ++ '\n' :: '\n' :: vpSummary
  match briefSummaryMerged raw with
  | some (Json.str s) => if (pyStrip s).isEmpty then initial else s
  | some _ => initial
  | none => initial

/-- One entry of the conversation log (`interactive_debate.py:446-452,500`). -/
structure Turn where
  speaker : Str
  content : Str
  round : Nat

/-- The placeholder recorded for an empty or failed agent reply
(`interactive_debate.py:491-492`). -/
def placeholderReply : Str :=
  "[No response due to API error; treating as empty turn.]".data

/-- The per-viewpoint lines of the round-0 setup entry
(`interactive_debate.py:442-444`), indices starting at 1. -/
def setupLines : Nat → List Viewpoint → List Str
  | _, [] => []
  | i, vp :: rest =>
    ("Agent ".data ++ natStr i ++ " (".data ++ vp.name ++ "): ".data ++ vp.position)
      :: setupLines (i + 1) rest

/-- The round-0 setup entry recorded before any debate round
(`interactive_debate.py:441-452`). -/
def setupTurn (vps : List Viewpoint) : Turn :=
  ⟨"Research / Setup".data,
   "Initial viewpoints (Round 0 - research/setup):\n".data
     ++ pyJoin "\n".data (setupLines 1 vps),
   0⟩

/-- Serialization of the conversation log used by `format_history`
(`interactive_debate.py:456-458`). -/
def serializeLog (log : List Turn) : Str :=
  log.foldl (fun acc t => acc ++ t.speaker ++ ':' :: ' ' :: t.content ++ ['\n']) []

/-- Model of `format_history` (`interactive_debate.py:454-461`): the full
serialization when it fits in `limitChars` characters, else its last
`limitChars` characters (`text[-limit_chars:]`). -/
def format_history (log : List Turn) (limitChars : Nat := 3000) : Str :=
  let text := serializeLog log
  if limitChars < text.length then text.drop (text.length - limitChars) else text

/-- The per-turn user prompt (`interactive_debate.py:470-483`), as a function
of the topic, round number and the already-formatted history text. -/
def turnUserPrompt (topic : Str) (r : Nat) (historyText : Str) : Str :=
  "Topic: ".data ++ topic ++ "\n\n".data
    ++ "Round: ".data ++ natStr r ++ "\n".data
    ++ "You are taking a turn in a multi-agent debate.\n".data
    ++ "Previous conversation (if any):\n".data
    ++ historyText ++ "\n\n".data
    ++ "Instructions for this turn:\n".data
    ++ "- Your main job is to ATTACK and REBUT other agents' arguments.\n".data
    ++ "- Pick 1–2 specific sentences or claims from recent messages above and quote them explicitly.\n".data
    ++ "- Use phrasing like \"you said X, but you ignore Y\" or \"you claim X, however Y shows the opposite\".\n".data
    ++ "- Make the conflict clear and focused, not vague; address concrete points.\n".data
    ++ "- Also briefly restate and reinforce your own position.\n".data
    ++ "Now write your next contribution (1–3 short paragraphs).\n".data

/-- One debate round: each agent in creation order takes a turn; an empty
reply is replaced by the placeholder before being appended
(`interactive_debate.py:466-501`).  The `oracle` gives the `invoke_raw`
result of the agent's model call (which may depend on the log so far, the
round number, and the agent). -/
def runAgentsTurns (oracle : List Turn → Nat → Str → Str) (r : Nat) :
    List Str → List Turn → List Turn
  | [], log => log
  | name :: rest, log =>
    let reply := oracle log r name
    let reply := if reply.isEmpty then placeholderReply else reply
    runAgentsTurns oracle r rest (log ++ [⟨name, reply, r⟩])

/-- Rounds `r, r+1, ...` (`n` of them) of the debate loop
(`interactive_debate.py:464-501`). -/
def runRoundsFrom (oracle : List Turn → Nat → Str → Str) (agents : List Str) :
    Nat → Nat → List Turn → List Turn
  | 0, _, log => log
  | n + 1, r, log => runRoundsFrom oracle agents n (r + 1) (runAgentsTurns oracle r agents log)

/-- The conversation log at the end of the round phase: the setup entry, then
rounds `1..numRounds` over one agent per viewpoint
(`interactive_debate.py:439-501`). -/
def debate_conversation_log (vps : List Viewpoint)
    (oracle : List Turn → Nat → Str → Str) (numRounds : Nat) : List Turn :=
  runRoundsFrom oracle (vps.map Viewpoint.name) numRounds 1 [setupTurn vps]

/-- The logical model role a constructed gateway was made from. -/
inductive RoleKey where
  | A
  | B
  | C
deriving DecidableEq

/-- The `agent_models` pool (`interactive_debate.py:361-369`): always three
entries — A, B, then C when configured, else a second A. -/
def agentModelsList (hasC : Bool) : List RoleKey :=
  [RoleKey.A, RoleKey.B] ++ [if hasC then RoleKey.C else RoleKey.A]

/-- The model assigned to the agent at 0-based creation index `i`
(`interactive_debate.py:403`): `agent_models[(idx - 1) % len(agent_models)]`
with `idx` enumerated from 1. -/
def assignedModel (hasC : Bool) (i : Nat) : RoleKey :=
  (agentModelsList hasC).getD (i % (agentModelsList hasC).length) RoleKey.A

/-- The agent-construction loop (`interactive_debate.py:399-437`) restricted
to model assignment, including its error path: after the assignment subscript
at line 403, line 404 computes `model_key = ["A", "B", "C"][(idx - 1) % 3]`
and line 405 indexes `pairing_cfg[model_key]` unconditionally (for the log
string), which raises an uncaught `KeyError` when `model_key = "C"`
(0-based index `i` with `i % 3 = 2`) and the pairing has no `C` role
(roles `A` and `B` were already indexed successfully at lines 362-363).
`Except.error i` models that `KeyError` aborting the loop at index `i`. -/
def agentAssignAux (hasC : Bool) : Nat → List Viewpoint →
    Except Nat (List (Viewpoint × RoleKey))
  | _, [] => Except.ok []
  | i, vp :: rest =>
    if i % 3 = 2 && !hasC then Except.error i
    else
      match agentAssignAux hasC (i + 1) rest with
      | Except.ok tail => Except.ok ((vp, assignedModel hasC i) :: tail)
      | Except.error j => Except.error j

/-- Viewpoints paired with their assigned models, in creation order, or the
index at which the construction loop raises `KeyError`. -/
def agentModelAssignments (vps : List Viewpoint) (hasC : Bool) :
    Except Nat (List (Viewpoint × RoleKey)) :=
  agentAssignAux hasC 0 vps

/-- The per-viewpoint lines of section 2 of the deterministic template report
(`interactive_debate.py:617-620`); the rationale line appears only for a
truthy (non-empty) summary. -/
def templateSummaryLines : Nat → List Viewpoint → List Str
  | _, [] => []
  | i, vp :: rest =>
    ("   - Agent ".data ++ natStr i ++ " (".data ++ vp.name ++ "): ".data ++ vp.position)
      :: ((if !vp.summary.isEmpty
            then [("       • Rationale: ".data ++ vp.summary)]
            else [])
          ++ templateSummaryLines (i + 1) rest)

/-- The `lines` list of the deterministic template report
(`interactive_debate.py:606-653`), transcribed verbatim (adjacent Python
string literals concatenated). -/
def templateReportLines (topic : Str) (vps : List Viewpoint) : List Str :=
  "1. Research Question & Context".data
  :: ("   - Topic: ".data ++ topic)
  :: (("   - This report summarizes a multi-agent debate with several distinct viewpoints "
     ++ "generated by an LLM and then refined through multi-round argumentation.").data
  :: ([] : Str)
  :: "2. Summary of Viewpoints".data
  :: templateSummaryLines 1 vps
  ++ [[],
      "3. Comparative Analysis & Key Conflicts".data,
      "   - Agents disagree on both the desirability and the acceptable risk level of the proposal.".data,
      ("   - Pro-style agents emphasize potential benefits and opportunities, while more cautious "
        ++ "agents focus on sovereignty, systemic risk, or ethical and distributional concerns.").data,
      ("   - Conditional or moderate agents typically argue for tightly scoped pilots or safeguards, "
        ++ "attempting to reconcile innovation with control.").data,
      [],
      "4. Tentative Conclusion & Recommendation".data,
      ("   - Given the diversity of arguments, a reasonable tentative recommendation is a phased, "
        ++ "evidence-driven approach: start with limited pilots and strong monitoring, while explicitly "
        ++ "defining success criteria and red lines informed by the more conservative viewpoints.").data,
      [],
      "5. Limitations & Suggestions for Further Investigation".data,
      ("   - This report is based solely on LLM-generated arguments and may miss empirical constraints, "
        ++ "domain-specific regulations, or political feasibility considerations.").data,
      ("   - Future work should incorporate real data, expert interviews, and stress-testing of the "
        ++ "policy options under adverse scenarios (e.g., crisis conditions, adversarial misuse).").data])

/-- The deterministic template report: `"\n".join(lines)`
(`interactive_debate.py:654`). -/
def templateReport (topic : Str) (vps : List Viewpoint) : Str :=
  pyJoin "\n".data (templateReportLines topic vps)

/-- The report fallback cascade (`interactive_debate.py:574-654`) as a
function of the two `invoke_raw` results: the full-context attempt, else the
shortened-prompt retry, else the deterministic template. -/
def finalReportOf (attempt1 attempt2 topic : Str) (vps : List Viewpoint) : Str :=
  if !attempt1.isEmpty then attempt1
  else if !attempt2.isEmpty then attempt2
  else templateReport topic vps

lemma ne_nil_of_isEmpty_false {l : Str} (h : l.isEmpty = false) : l ≠ [] := by
  intro hn
  subst hn
  simp at h

lemma collectValid_valid (items : List Json) :
    ∀ vp ∈ collectValid items, vp.name ≠ [] ∧ vp.position ≠ [] := by
  intro vp hvp
  rcases List.mem_filterMap.mp hvp with ⟨item, _, hf⟩
  cases item <;> simp only [viewpointOfItem] at hf
  case obj kvs =>
    split at hf
    case isTrue hc =>
      rcases Option.some.inj hf with rfl
      simp only [Bool.and_eq_true, Bool.not_eq_true'] at hc
      exact ⟨ne_nil_of_isEmpty_false hc.1, ne_nil_of_isEmpty_false hc.2⟩
    case isFalse => exact absurd hf (by simp)
  all_goals exact absurd hf (by simp)

lemma fallbackViewpoints_spec (topic : Str) :
    (fallbackViewpoints topic).length = 2
    ∧ (∀ vp ∈ fallbackViewpoints topic, vp.name ≠ [] ∧ vp.position ≠ [])
    ∧ (∀ vp ∈ fallbackViewpoints topic, topic <:+: vp.position) := by
  have hs : ("Strongly supports the statement: ".data : Str) ≠ [] := by decide
  have ho : ("Strongly opposes the statement: ".data : Str) ≠ [] := by decide
  refine ⟨rfl, ?_, ?_⟩
  · intro vp hvp
    simp only [fallbackViewpoints, List.mem_cons, List.not_mem_nil, or_false] at hvp
    rcases hvp with h | h <;> subst h
    · refine ⟨?_, fun hnil => hs (List.append_eq_nil.mp hnil).1⟩
      show ("Pro Position".data : Str) ≠ []
      decide
    · refine ⟨?_, fun hnil => ho (List.append_eq_nil.mp hnil).1⟩
      show ("Con Position".data : Str) ≠ []
      decide
  · intro vp hvp
    simp only [fallbackViewpoints, List.mem_cons, List.not_mem_nil, or_false] at hvp
    rcases hvp with h | h <;> subst h
    · exact ⟨"Strongly supports the statement: ".data, [], by simp⟩
    · exact ⟨"Strongly opposes the statement: ".data, [], by simp⟩

/-- C1: for every raw model text, every topic and every `max_agents ≥ 2`,
`generate_viewpoints` returns a list whose length lies in `[2, max_agents]`,
and every returned entry has a non-empty name and a non-empty position
(invalid entries are filtered before acceptance and the accepted list is
truncated to `max_agents`). -/
theorem generate_viewpoints_length_and_valid (raw topic : Str) (maxAgents : Nat)
    (h : 2 ≤ maxAgents) :
    2 ≤ (generate_viewpoints raw topic maxAgents).length
    ∧ (generate_viewpoints raw topic maxAgents).length ≤ maxAgents
    ∧ ∀ vp ∈ generate_viewpoints raw topic maxAgents,
        vp.name ≠ [] ∧ vp.position ≠ [] := by
  have hfb := fallbackViewpoints_spec topic
  have hfbGoal : 2 ≤ (fallbackViewpoints topic).length
      ∧ (fallbackViewpoints topic).length ≤ maxAgents
      ∧ ∀ vp ∈ fallbackViewpoints topic, vp.name ≠ [] ∧ vp.position ≠ [] :=
    ⟨by rw [hfb.1], by rw [hfb.1]; exact h, hfb.2.1⟩
  unfold generate_viewpoints
  split
  · next items heq =>
    dsimp only
    split
    · next hlen =>
      refine ⟨?_, ?_, ?_⟩
      · rw [List.length_take]; exact le_min h hlen
      · rw [List.length_take]; exact min_le_left _ _
      · intro vp hvp
        exact collectValid_valid items vp (List.mem_of_mem_take hvp)
    · exact hfbGoal
  · exact hfbGoal

theorem generate_viewpoints_length_and_valid_witness :
    2 ≤ 2
    ∧ (2 ≤ (generate_viewpoints "oops".data "T".data 2).length
        ∧ (generate_viewpoints "oops".data "T".data 2).length ≤ 2
        ∧ ∀ vp ∈ generate_viewpoints "oops".data "T".data 2,
            vp.name ≠ [] ∧ vp.position ≠ []) :=
  ⟨by decide, generate_viewpoints_length_and_valid "oops".data "T".data 2 (by decide)⟩

/-- The condition under which `generate_viewpoints` falls back: the gateway
text is not a JSON list, or it yields fewer than two valid entries. -/
def viewpointFallbackB (raw : Str) : Bool :=
  match jsonLoads raw with
  | some (Json.arr items) => decide ((collectValid items).length < 2)
  | _ => true

/-- C6: whenever viewpoint generation fails (unparseable text, a non-list
document, or fewer than two entries with non-empty name and position),
`generate_viewpoints` returns exactly the two canned fallback viewpoints —
one supporting and one opposing — and each fallback position contains the
original topic verbatim. -/
theorem generate_viewpoints_fallback_exact (raw topic : Str) (maxAgents : Nat)
    (h : viewpointFallbackB raw = true) :
    generate_viewpoints raw topic maxAgents = fallbackViewpoints topic
    ∧ (fallbackViewpoints topic).length = 2
    ∧ ∀ vp ∈ fallbackViewpoints topic, topic <:+: vp.position := by
  have hfb := fallbackViewpoints_spec topic
  refine ⟨?_, hfb.1, hfb.2.2⟩
  unfold viewpointFallbackB at h
  unfold generate_viewpoints
  split
  · next items heq =>
    dsimp only
    rw [heq] at h
    dsimp only at h
    simp only [decide_eq_true_eq] at h
    split
    · next hlen => exact absurd hlen (by omega)
    · rfl
  · rfl

theorem generate_viewpoints_fallback_exact_witness :
    viewpointFallbackB "oops".data = true
    ∧ (generate_viewpoints "oops".data "T".data 5 = fallbackViewpoints "T".data
        ∧ (fallbackViewpoints "T".data).length = 2
        ∧ ∀ vp ∈ fallbackViewpoints "T".data, "T".data <:+: vp.position) :=
  ⟨by decide, generate_viewpoints_fallback_exact "oops".data "T".data 5 (by decide)⟩

lemma runAgentsTurns_length (oracle : List Turn → Nat → Str → Str) (r : Nat) :
    ∀ (names : List Str) (log : List Turn),
      (runAgentsTurns oracle r names log).length = log.length + names.length := by
  intro names
  induction names with
  | nil => intro log; simp [runAgentsTurns]
  | cons n rest ih =>
    intro log
    rw [runAgentsTurns, ih]
    simp
    omega

lemma runRoundsFrom_length (oracle : List Turn → Nat → Str → Str) (agents : List Str) :
    ∀ (n r : Nat) (log : List Turn),
      (runRoundsFrom oracle agents n r log).length = log.length + n * agents.length := by
  intro n
  induction n with
  | zero => intro r log; simp [runRoundsFrom]
  | succ m ih =>
    intro r log
    rw [runRoundsFrom, ih, runAgentsTurns_length]
    ring

/-- C3: for every run with `K` accepted viewpoints and `N ≥ 1` rounds, the
conversation log at the end of the round phase has exactly `1 + N * K`
entries — one round-0 setup entry plus one entry per agent per round, an
empty or failed reply being recorded as the placeholder turn rather than
skipped. -/
theorem conversation_log_length (vps : List Viewpoint)
    (oracle : List Turn → Nat → Str → Str) (numRounds : Nat)
    (_h : 1 ≤ numRounds) :
    (debate_conversation_log vps oracle numRounds).length
      = 1 + numRounds * vps.length := by
  rw [debate_conversation_log, runRoundsFrom_length]
  simp

theorem conversation_log_length_witness :
    1 ≤ 1
    ∧ (debate_conversation_log [⟨"A".data, "p".data, []⟩]
          (fun _ _ _ => []) 1).length = 1 + 1 * 1 :=
  ⟨by decide,
   conversation_log_length [⟨"A".data, "p".data, []⟩] (fun _ _ _ => []) 1 (by decide)⟩

lemma agentAssignAux_ok_getD (hasC : Bool) :
    ∀ (vps : List Viewpoint) (k : Nat) (asg : List (Viewpoint × RoleKey)),
      agentAssignAux hasC k vps = Except.ok asg →
      ∀ i, i < vps.length →
        (asg.map Prod.snd).getD i RoleKey.A = assignedModel hasC (k + i) := by
  intro vps
  induction vps with
  | nil => intro k asg h i hi; simp at hi
  | cons vp rest ih =>
    intro k asg h i hi
    rw [agentAssignAux] at h
    split at h
    · exact absurd h (by simp)
    · split at h
      · next tail htail =>
        rcases Except.ok.inj h with rfl
        cases i with
        | zero => simp
        | succ j =>
          have hj : j < rest.length := by simpa using Nat.lt_of_succ_lt_succ hi
          simp only [List.map_cons, List.getD_cons_succ]
          rw [ih (k + 1) tail htail j hj]
          congr 1
          omega
      · exact absurd h (by simp)

/-- C4: evaluation of the agent-construction loop at the claim's own scenario.
With three viewpoints and no `C` role configured, the unguarded lookup
`pairing_cfg[model_key]` at `interactive_debate.py:405` raises `KeyError` at
the third agent (0-based index 2), so the run aborts there instead of
completing the claimed `[A, B, A]` assignment (even though the assignment
subscript itself would yield model A: `agent_models[2]` holds the `A`
fallback).  Two agents without `C` complete as `[A, B]`, three agents with
`C` complete as `[A, B, C]`, and whenever the loop completes, the agent at
creation index `i` carries `models[i mod len(models)]` — deterministic
round-robin. -/
theorem agent_model_assignment_keyerror :
    (∀ v0 v1 v2 : Viewpoint,
        agentModelAssignments [v0, v1, v2] false = Except.error 2)
    ∧ (∀ v0 v1 : Viewpoint,
        agentModelAssignments [v0, v1] false
          = Except.ok [(v0, RoleKey.A), (v1, RoleKey.B)])
    ∧ (∀ v0 v1 v2 : Viewpoint,
        agentModelAssignments [v0, v1, v2] true
          = Except.ok [(v0, RoleKey.A), (v1, RoleKey.B), (v2, RoleKey.C)])
    ∧ (∀ (hasC : Bool) (vps : List Viewpoint) (asg : List (Viewpoint × RoleKey)),
        agentModelAssignments vps hasC = Except.ok asg →
        ∀ i, i < vps.length →
          (asg.map Prod.snd).getD i RoleKey.A
            = (agentModelsList hasC).getD
                (i % (agentModelsList hasC).length) RoleKey.A) := by
  refine ⟨fun v0 v1 v2 => rfl, fun v0 v1 => rfl, fun v0 v1 v2 => rfl, ?_⟩
  intro hasC vps asg h i hi
  rw [agentAssignAux_ok_getD hasC vps 0 asg h i hi]
  simp [assignedModel]

theorem agent_model_assignment_keyerror_witness :
    agentModelAssignments [⟨[], [], []⟩, ⟨[], [], []⟩, ⟨[], [], []⟩] false
        = Except.error 2
    ∧ ((([(⟨[], [], []⟩, RoleKey.A), (⟨[], [], []⟩, RoleKey.B)]
            : List (Viewpoint × RoleKey)).map Prod.snd).getD 1 RoleKey.A
        = (agentModelsList false).getD (1 % (agentModelsList false).length) RoleKey.A) :=
  ⟨agent_model_assignment_keyerror.1 ⟨[], [], []⟩ ⟨[], [], []⟩ ⟨[], [], []⟩,
   agent_model_assignment_keyerror.2.2.2 false [⟨[], [], []⟩, ⟨[], [], []⟩]
     [(⟨[], [], []⟩, RoleKey.A), (⟨[], [], []⟩, RoleKey.B)] rfl 1 (by decide)⟩

/-- C8: for every conversation log, the history text embedded in an agent's
user prompt (`format_history`) is a suffix of the full serialized log, has
length at most 3000 characters, equals the full serialization whenever that
fits in 3000 characters, and is embedded verbatim in the turn's user prompt
(older content is dropped, never summarized or reordered). -/
theorem format_history_tail (log : List Turn) :
    format_history log <:+ serializeLog log
    ∧ (format_history log).length ≤ 3000
    ∧ ((serializeLog log).length ≤ 3000 → format_history log = serializeLog log)
    ∧ ∀ (topic : Str) (r : Nat),
        format_history log <:+: turnUserPrompt topic r (format_history log) := by
  refine ⟨?_, ?_, ?_, ?_⟩
  · rw [format_history]
    split
    · exact List.drop_suffix _ _
    · exact List.suffix_refl _
  · rw [format_history]
    split
    · next hgt => rw [List.length_drop]; omega
    · next hle => omega
  · intro hle
    rw [format_history]
    split
    · next hgt => omega
    · rfl
  · intro topic r
    refine ⟨"Topic: ".data ++ topic ++ "\n\n".data ++ "Round: ".data ++ natStr r
        ++ "\n".data
        ++ "You are taking a turn in a multi-agent debate.\n".data
        ++ "Previous conversation (if any):\n".data,
      "\n\n".data
        ++ "Instructions for this turn:\n".data
        ++ "- Your main job is to ATTACK and REBUT other agents' arguments.\n".data
        ++ "- Pick 1–2 specific sentences or claims from recent messages above and quote them explicitly.\n".data
        ++ "- Use phrasing like \"you said X, but you ignore Y\" or \"you claim X, however Y shows the opposite\".\n".data
        ++ "- Make the conflict clear and focused, not vague; address concrete points.\n".data
        ++ "- Also briefly restate and reinforce your own position.\n".data
        ++ "Now write your next contribution (1–3 short paragraphs).\n".data, ?_⟩
    simp [turnUserPrompt, List.append_assoc]

theorem format_history_tail_witness :
    (serializeLog []).length ≤ 3000 ∧ format_history [] = serializeLog [] :=
  ⟨by decide, (format_history_tail []).2.2.1 (by decide)⟩

/-- C10: `invoke_raw` is total (never raises, always yields a string): an
exception from the model's `invoke` yields `""`; otherwise the result is the
response's `content` attribute (the stringified response when the attribute
is absent, the empty string when the attribute is `None`) stripped of leading
and trailing whitespace. -/
theorem invoke_raw_cases :
    (∀ e, invoke_raw (Except.error e) = [])
    ∧ (∀ (r : RespObj) (s : Str), r.contentAttr = some (PyContentVal.pyText s) →
        invoke_raw (Except.ok r) = pyStrip s)
    ∧ (∀ r : RespObj, r.contentAttr = some PyContentVal.pyNone →
        invoke_raw (Except.ok r) = [])
    ∧ (∀ r : RespObj, r.contentAttr = none →
        invoke_raw (Except.ok r) = pyStrip r.strRepr) := by
  refine ⟨fun e => rfl, ?_, ?_, ?_⟩
  · intro r s h
    simp [invoke_raw, h]
  · intro r h
    simp [invoke_raw, h]
    rfl
  · intro r h
    simp [invoke_raw, h]

theorem invoke_raw_cases_witness :
    (⟨some (PyContentVal.pyText "  hi ".data), []⟩ : RespObj).contentAttr
        = some (PyContentVal.pyText "  hi ".data)
    ∧ invoke_raw (Except.ok ⟨some (PyContentVal.pyText "  hi ".data), []⟩)
        = pyStrip "  hi ".data :=
  ⟨rfl, invoke_raw_cases.2.1 ⟨some (PyContentVal.pyText "  hi ".data), []⟩ "  hi ".data rfl⟩

lemma pyJoin_cons_cons (sep a b : Str) (rest : List Str) :
    pyJoin sep (a :: b :: rest) = a ++ sep ++ pyJoin sep (b :: rest) := rfl

lemma pyJoin_infix_second (sep a b : Str) (rest : List Str) :
    b <:+: pyJoin sep (a :: b :: rest) := by
  cases rest with
  | nil => exact ⟨a ++ sep, [], by simp [pyJoin, List.append_assoc]⟩
  | cons c cs =>
    exact ⟨a ++ sep, sep ++ pyJoin sep (c :: cs), by simp [pyJoin, List.append_assoc]⟩

lemma pyJoin_ne_nil_of_head_ne_nil (sep a : Str) (rest : List Str) (ha : a ≠ []) :
    pyJoin sep (a :: rest) ≠ [] := by
  cases rest with
  | nil => simpa [pyJoin] using ha
  | cons b bs =>
    rw [pyJoin_cons_cons]
    intro hEq
    exact ha (List.append_eq_nil.mp (List.append_eq_nil.mp hEq).1).1

/-- C5: the final report is a non-empty string for every run — whichever of
the full-context attempt, the shortened-prompt retry, or the deterministic
template is used — and when both gateway attempts return the empty string the
templated report contains the literal topic string. -/
theorem final_report_nonempty_and_topic (attempt1 attempt2 topic : Str)
    (vps : List Viewpoint) :
    finalReportOf attempt1 attempt2 topic vps ≠ []
    ∧ (attempt1 = [] → attempt2 = [] →
        topic <:+: finalReportOf attempt1 attempt2 topic vps) := by
  have htmpl_ne : templateReport topic vps ≠ [] := by
    rw [templateReport, templateReportLines]
    exact pyJoin_ne_nil_of_head_ne_nil _ _ _ (by decide)
  have htmpl_topic : topic <:+: templateReport topic vps := by
    have h2 : ("   - Topic: ".data ++ topic) <:+: templateReport topic vps := by
      rw [templateReport, templateReportLines]
      exact pyJoin_infix_second _ _ _ _
    exact List.IsInfix.trans ⟨"   - Topic: ".data, [], by simp⟩ h2
  constructor
  · rw [finalReportOf]
    split
    · next h1 => exact ne_nil_of_isEmpty_false (by simpa using h1)
    · split
      · next h2 => exact ne_nil_of_isEmpty_false (by simpa using h2)
      · exact htmpl_ne
  · intro h1 h2
    rw [finalReportOf, h1, h2]
    simpa using htmpl_topic

theorem final_report_nonempty_and_topic_witness :
    ([] : Str) = [] ∧
      finalReportOf [] [] "T".data [] ≠ []
      ∧ "T".data <:+: finalReportOf [] [] "T".data [] :=
  ⟨rfl,
   (final_report_nonempty_and_topic [] [] "T".data []).1,
   (final_report_nonempty_and_topic [] [] "T".data []).2 rfl rfl⟩

/-- Whether the parsed structured brief supplies a usable
`summary_for_prompt`: the parse succeeded with a dict whose
`summary_for_prompt` entry is a string with non-empty strip. -/
def parsedSuppliesSummaryB (raw : Str) : Bool :=
  match briefSummaryMerged raw with
  | some (Json.str s) => !(pyStrip s).isEmpty
  | _ => false

/-- C9: for every viewpoint with a non-empty position, the brief's
`summary_for_prompt` is a non-empty string whatever the model returned; and
whenever the parsed response does not supply a non-empty string for the field
(missing key, unparseable text, non-string value, or empty/whitespace-only
string), the field equals the concatenation `position + "\n\n" + summary`. -/
theorem summary_for_prompt_nonempty (position vpSummary raw : Str)
    (hpos : position ≠ []) :
    summary_for_prompt position vpSummary raw ≠ []
    ∧ (parsedSuppliesSummaryB raw = false →
        summary_for_prompt position vpSummary raw
          = position ++ '\n' :: '\n' :: vpSummary) := by
  have hinit : (position ++ '\n' :: '\n' :: vpSummary : Str) ≠ [] := by
    intro hEq
    exact hpos (List.append_eq_nil.mp hEq).1
  constructor
  · rw [summary_for_prompt]
    split
    · split
      · exact hinit
      · next hne =>
        intro hsnil
        subst hsnil
        exact hne (by decide)
    · exact hinit
    · exact hinit
  · intro hno
    rw [parsedSuppliesSummaryB] at hno
    rw [summary_for_prompt]
    split
    · next s heq =>
      rw [heq] at hno
      simp only [Bool.not_eq_false'] at hno
      rw [if_pos hno]
    · rfl
    · rfl

theorem summary_for_prompt_nonempty_witness :
    ("P".data : Str) ≠ []
    ∧ summary_for_prompt "P".data "S".data [] ≠ []
    ∧ (parsedSuppliesSummaryB [] = false →
        summary_for_prompt "P".data "S".data []
          = "P".data ++ '\n' :: '\n' :: "S".data) :=
  ⟨by decide,
   (summary_for_prompt_nonempty "P".data "S".data [] (by decide)).1,
   (summary_for_prompt_nonempty "P".data "S".data [] (by decide)).2⟩

/-- C7: every provider wrapper's `invoke` is total (modelled as a total
function of the backend outcome — it never raises and never returns `None`):
on any transport, authentication or backend error it returns the fixed
sentinel failure payload, which itself parses as JSON, so callers always
receive parseable text. -/
theorem gateway_invoke_error_sentinel :
    (∀ e e', openAIModelInvoke (Except.error e) (Except.error e') = sentinelResponse)
    ∧ (∀ e, anthropicModelInvoke (Except.error e) = sentinelResponse)
    ∧ (∀ e, googleModelInvoke (Except.error e) = sentinelResponse)
    ∧ (∀ e, localModelInvoke (Except.error e) = sentinelResponse)
    ∧ (∀ e, litgptModelInvoke (LitgptOutcome.exn e) = sentinelResponse)
    ∧ (∀ (st : Nat) (body : Option Json), st ≠ 200 →
        litgptModelInvoke (LitgptOutcome.resp st body) = sentinelResponse)
    ∧ (∀ outcome, (anthropicModelInvoke outcome).content.isSome = true)
    ∧ (∀ outcome, (googleModelInvoke outcome).content.isSome = true)
    ∧ (∀ outcome, (localModelInvoke outcome).content.isSome = true)
    ∧ (∀ outcome, (litgptModelInvoke outcome).content.isSome = true)
    ∧ (jsonLoads sentinelPayload).isSome = true := by
  refine ⟨?_, fun e => rfl, fun e => rfl, fun e => rfl, fun e => rfl, ?_, ?_, ?_, ?_, ?_, ?_⟩
  · intro e e'
    unfold openAIModelInvoke
    split
    · next m heq => simp at heq
    · next a heq =>
      split
      · rfl
      · rfl
  · intro st body h
    simp [litgptModelInvoke, h]
  · intro outcome
    cases outcome <;> rfl
  · intro outcome
    cases outcome <;> rfl
  · intro outcome
    cases outcome <;> rfl
  · intro outcome
    cases outcome with
    | exn e => rfl
    | resp st body =>
      unfold litgptModelInvoke
      dsimp only
      split
      · cases body with
        | none => rfl
        | some j =>
          cases j <;> try rfl
          case obj kvs =>
            dsimp only
            split
            · rfl
            · split <;> rfl
      · rfl
  · decide

theorem gateway_invoke_error_sentinel_witness :
    (500 : Nat) ≠ 200
    ∧ litgptModelInvoke (LitgptOutcome.resp 500 none) = sentinelResponse
    ∧ openAIModelInvoke (Except.error "boom".data) (Except.error "x".data)
        = sentinelResponse :=
  ⟨by decide,
   gateway_invoke_error_sentinel.2.2.2.2.2.1 500 none (by decide),
   gateway_invoke_error_sentinel.1 "boom".data "x".data⟩

/-- C2: evaluation of the LitGPT JSON completion at the truncated fragment
named by the spec.  The code appends all missing closing braces before all
missing closing brackets, so the input produces the count-balanced text
`{"a": 1, "b": [2, 3}]` — which does not parse as JSON — instead of a text
parsing to the value of `{"a": 1, "b": [2, 3]}` (which does parse).  The
claimed behaviour of the completion therefore fails at this input. -/
theorem litgpt_completion_wrong_bracket_order :
    litgptPostprocess "\x7b\"a\": 1, \"b\": [2, 3".data
        = "\x7b\"a\": 1, \"b\": [2, 3\x7d]".data
    ∧ (litgptPostprocess "\x7b\"a\": 1, \"b\": [2, 3".data).count lbrace
        = (litgptPostprocess "\x7b\"a\": 1, \"b\": [2, 3".data).count rbrace
    ∧ (litgptPostprocess "\x7b\"a\": 1, \"b\": [2, 3".data).count '['
        = (litgptPostprocess "\x7b\"a\": 1, \"b\": [2, 3".data).count ']'
    ∧ (jsonLoads (litgptPostprocess "\x7b\"a\": 1, \"b\": [2, 3".data)).isNone = true
    ∧ (jsonLoads "\x7b\"a\": 1, \"b\": [2, 3]\x7d".data).isSome = true := by
  refine ⟨by decide, by decide, by decide, by decide, by decide⟩
